import Mathlib

/-!
Verification of the EdgeFleet route-optimization core against its design
specification.  The definitions below are shallow embeddings, translated
directly from the Python sources:

* `ml/route_optimization/fuel_calculator.py`   (fuel / emissions model)
* `ml/route_optimization/optimizer.py`         (clustering, TSP, route build)
* `backend/ai_agents/route_optimization_agent.py` (traffic / weather factors,
  haversine, camera-frame processing)
* `backend/services/camera_feed_manager.py`    (bounded frame queues,
  source registration)

Machine floats are modelled by `ℚ` where only field arithmetic and
comparisons occur, and by `ℝ` where the source uses transcendental
functions (`sqrt`, trigonometry).  Python functions that can raise are
modelled with `Except`; a caught exception follows the source's handler.
-/

namespace EdgeFleet

/-! ### FuelCalculator (ml/route_optimization/fuel_calculator.py) -/

/-- `FuelCalculator.base_consumption` dict: litres per 100 km by vehicle
type, `dict.get` default 10.0 for unknown types. -/
def base_consumption (vehicle_type : String) : ℚ :=
  if vehicle_type = "sedan" then 7.5
  else if vehicle_type = "suv" then 10.0
  else if vehicle_type = "truck" then 25.0
  else if vehicle_type = "van" then 12.0
  else 10.0

/-- `FuelCalculator.factors.road_condition` dict, `dict.get` default 0.2. -/
def road_condition_increment (road_condition : String) : ℚ :=
  if road_condition = "excellent" then 0.0
  else if road_condition = "good" then 0.1
  else if road_condition = "average" then 0.2
  else if road_condition = "poor" then 0.4
  else if road_condition = "terrible" then 0.7
  else 0.2

/-- Result dictionary of `FuelCalculator.calculate_fuel_consumption`. -/
structure FuelResult where
  base_consumption_l_per_100km : ℚ
  adjusted_consumption_l_per_100km : ℚ
  total_fuel_liters : ℚ
  load_factor : ℚ
  speed_factor : ℚ
  elevation_factor : ℚ
  road_factor : ℚ
  emissions_kg_co2 : ℚ
  deriving Repr, DecidableEq

/-- `FuelCalculator.calculate_fuel_consumption`, translated line by line.
The factor constants are the ones installed by `FuelCalculator.__init__`:
load 0.001 per kg, speed optimum 60 km/h with penalty 0.1 %/(km/h),
elevation 0.1 % per 10 m, road-condition table with default "average". -/
def calculate_fuel_consumption (distance_km : ℚ) (vehicle_type : String)
    (load_kg : ℚ) (avg_speed_kmh : ℚ) (elevation_gain_m : ℚ)
    (road_condition : String) : FuelResult :=
  let base := base_consumption vehicle_type.toLower
  let load_factor := 1 + 0.001 * load_kg
  let speed_diff := max 0 (avg_speed_kmh - 60)
  let speed_factor := 1 + speed_diff * 0.1 / 100
  let elevation_factor := 1 + (elevation_gain_m / 10) * 0.1 / 100
  let road_factor := 1 + road_condition_increment road_condition.toLower
  let adjusted := base * load_factor * speed_factor * elevation_factor * road_factor
  let total_fuel := (adjusted / 100) * distance_km
  { base_consumption_l_per_100km := base
    adjusted_consumption_l_per_100km := adjusted
    total_fuel_liters := total_fuel
    load_factor := load_factor
    speed_factor := speed_factor
    elevation_factor := elevation_factor
    road_factor := road_factor
    emissions_kg_co2 := total_fuel * 2.31 }
/-! ### Weather factor (RouteOptimizationAgent._get_weather_factor) -/

/-- `condition_factors` dict in `_get_weather_factor`, `dict.get` default 1.0. -/
def condition_factor (condition : String) : ℚ :=
  match condition with
  | "clear" => 1.0
  | "clouds" => 1.0
  | "partly-cloudy" => 1.0
  | "cloudy" => 1.0
  | "rain" => 1.3
  | "light rain" => 1.2
  | "moderate rain" => 1.4
  | "heavy rain" => 1.7
  | "showers" => 1.5
  | "thunderstorm" => 2.0
  | "snow" => 2.0
  | "light snow" => 1.5
  | "heavy snow" => 2.5
  | "fog" => 1.5
  | "mist" => 1.3
  | "haze" => 1.2
  | "dust" => 1.4
  | "sand" => 1.6
  | "ash" => 1.8
  | "squall" => 2.0
  | "tornado" => 3.0
  | _ => 1.0

/-- The weather dictionary passed to `_get_weather_factor`; `none` models a
missing key, read back with the source's `dict.get` defaults. -/
structure WeatherRecord where
  condition : Option String
  precipitation : Option ℚ
  wind_speed : Option ℚ
  visibility : Option ℚ
  temperature : Option ℚ

/-- `RouteOptimizationAgent._get_weather_factor`, translated line by line
(the unused `location` argument is dropped). -/
def get_weather_factor (w : WeatherRecord) : ℚ :=
  let factor := condition_factor ((w.condition.getD "clear").toLower)
  let precipitation := w.precipitation.getD 0
  let factor := if precipitation > 10 then max factor 1.7
    else if precipitation > 5 then max factor 1.5
    else if precipitation > 2 then max factor 1.2
    else factor
  let wind_speed := w.wind_speed.getD 0
  let factor := if wind_speed > 50 then max factor 2.0
    else if wind_speed > 30 then max factor 1.5
    else if wind_speed > 20 then max factor 1.2
    else factor
  let visibility := w.visibility.getD 10
  let factor := if visibility < 0.1 then max factor 2.0
    else if visibility < 0.5 then max factor 1.7
    else if visibility < 1 then max factor 1.3
    else factor
  let temperature := w.temperature.getD 20
  let factor := if temperature > 35 ∨ temperature < -5 then max factor 1.3
    else factor
  max 1.0 factor

/-- Value contributed by the precipitation branch of `_get_weather_factor`
(1 when no branch applies). -/
def precipitation_clamp (p : ℚ) : ℚ :=
  if p > 10 then 1.7 else if p > 5 then 1.5 else if p > 2 then 1.2 else 1

/-- Value contributed by the wind-speed branch (1 when no branch applies). -/
def wind_clamp (ws : ℚ) : ℚ :=
  if ws > 50 then 2.0 else if ws > 30 then 1.5 else if ws > 20 then 1.2 else 1

/-- Value contributed by the visibility branch (1 when no branch applies). -/
def visibility_clamp (v : ℚ) : ℚ :=
  if v < 0.1 then 2.0 else if v < 0.5 then 1.7 else if v < 1 then 1.3 else 1

/-- Value contributed by the temperature branch (1 when no branch applies). -/
def temperature_clamp (t : ℚ) : ℚ :=
  if t > 35 ∨ t < -5 then 1.3 else 1

/-! ### CameraFeedManager (backend/services/camera_feed_manager.py) -/

/-- One push in `CameraFeedManager._capture_frames` into the per-camera
bounded queue (front of the list = oldest entry): `put_nowait`; on
`queue.Full` the oldest frame is removed with `get_nowait` and the new
frame inserted; the inner `queue.Empty` handler drops the new frame (that
branch is unreachable for a bounded queue).  Python's
`queue.Queue(maxsize=0)` is unbounded, so `put_nowait` only raises `Full`
when `0 < maxsize ∧ maxsize ≤ length`. -/
def put_frame {α : Type} (maxsize : Nat) (q : List α) (f : α) : List α :=
  if maxsize = 0 ∨ q.length < maxsize then q ++ [f]
  else
    match q with
    | [] => q
    | _ :: rest => rest ++ [f]

/-- Registration record for one camera: its bounded queue (frame payloads
abstracted to `Nat`) and the optional callback (abstracted to a handle),
merging the source's `camera_queues` and `callbacks` dicts; the capture
thread carries no further state. -/
structure CameraReg where
  queue : List Nat
  callback : Option Nat
  deriving DecidableEq, Repr

/-- The registration state of `CameraFeedManager`. -/
structure ManagerState where
  camera_queues : List (String × CameraReg)
  deriving DecidableEq, Repr

/-- The spec's traffic-feed registration error taxonomy. -/
inductive SourceError
  | sourceAlreadyExists
  | sourceNotFound
  deriving DecidableEq, Repr

/-- `CameraFeedManager.add_camera`: a duplicate `camera_id` logs a warning
and returns normally, touching nothing; a new id gets an empty bounded
queue, the callback registration, and a capture thread (thread identity
abstracted away).  The `Except` codomain records raised exceptions; the
source raises none. -/
def add_camera (s : ManagerState) (camera_id : String) (callback : Option Nat) :
    Except SourceError ManagerState :=
  if (s.camera_queues.lookup camera_id).isSome then .ok s
  else .ok { camera_queues :=
    s.camera_queues ++ [(camera_id, { queue := [], callback := callback })] }

/-- A two-camera manager state used as the concrete duplicate-registration
scenario. -/
def demoManagerState : ManagerState :=
  { camera_queues :=
      [("cam1", { queue := [5, 6], callback := some 1 }),
       ("cam2", { queue := [], callback := none })] }

/-! ### RouteOptimizationAgent camera-frame processing -/

/-- The traffic dictionary built by `_analyze_traffic` on its successful
path (the `vehicles` list is abstracted to its length). -/
structure TrafficInfo where
  vehicle_count : Nat
  density : ℚ
  is_congested : Bool
  deriving DecidableEq, Repr

/-- Failure of the external vehicle-detection collaborator. -/
inductive DetectionError
  | failure
  deriving DecidableEq, Repr

/-- `RouteOptimizationAgent._analyze_traffic`: the YOLO/ByteTrack
collaborator is abstracted by its outcome.  `.error` is any exception in
the `try` block — caught by the source, which returns the empty dict
(modelled `none`); `.ok none` is the no-tracker / no-detections path that
also returns the empty dict; `.ok (some count)` is the successful path,
whose density `min 1 (count/50)` and congestion `count > 10`
(`traffic_jam_threshold`) are computed as in the source. -/
def analyze_traffic (detection : Except DetectionError (Option Nat)) :
    Option TrafficInfo :=
  match detection with
  | .error _ => none
  | .ok none => none
  | .ok (some count) =>
      some { vehicle_count := count
             density := min 1 ((count : ℚ) / 50)
             is_congested := count > 10 }

/-- Per-camera entry of the agent's `camera_data` dict (`location` and
`status`, never written by frame processing, are omitted;
`traffic_conditions = none` models the empty dict `{}`). -/
structure CameraEntry where
  last_update : Nat
  traffic_conditions : Option TrafficInfo
  deriving DecidableEq, Repr

/-- The agent state touched by frame processing. -/
structure AgentState where
  camera_data : List (String × CameraEntry)
  deriving DecidableEq, Repr

/-- `RouteOptimizationAgent._process_camera_frame`: unregistered ids
return immediately; otherwise `last_update` is refreshed and
`traffic_conditions` is assigned the result of `_analyze_traffic` on this
frame.  The outer exception handler never fires on this path because
`_analyze_traffic` catches collaborator errors itself. -/
def process_camera_frame (s : AgentState) (camera_id : String)
    (detection : Except DetectionError (Option Nat)) (now : Nat) : AgentState :=
  match s.camera_data.lookup camera_id with
  | none => s
  | some _ =>
      { camera_data := s.camera_data.map (fun kv =>
          if kv.1 = camera_id then
            (kv.1, { last_update := now
                     traffic_conditions := analyze_traffic detection })
          else kv) }

/-- An agent state with one registered camera holding a non-empty
last-known traffic snapshot. -/
def demoAgentState : AgentState :=
  { camera_data :=
      [("cam1", { last_update := 3
                  traffic_conditions :=
                    some { vehicle_count := 12, density := 1, is_congested := true } })] }

/-! ### Traffic factor (RouteOptimizationAgent._get_traffic_factor) -/

/-- An incident entry as read by `_get_traffic_factor`; `none` models a
missing key (`dict.get` defaults: severity "medium", location (0, 0)). -/
structure Incident where
  severity : Option String
  location : Option (ℝ × ℝ)

/-- The traffic-conditions dictionary passed to `_get_traffic_factor`;
`density = none` models a missing key (`dict.get` default 0.5). -/
structure TrafficConditions where
  density : Option ℝ
  incidents : List Incident

open Classical in
/-- `RouteOptimizationAgent._distance_to_route`: point-to-segment distance
in coordinate degrees (Euclidean, as in the source). -/
noncomputable def distance_to_route (start finish point : ℝ × ℝ) : ℝ :=
  let x1 := start.1
  let y1 := start.2
  let x2 := finish.1
  let y2 := finish.2
  let x0 := point.1
  let y0 := point.2
  let dx := x2 - x1
  let dy := y2 - y1
  if dx = 0 ∧ dy = 0 then
    Real.sqrt ((x0 - x1) ^ 2 + (y0 - y1) ^ 2)
  else
    let t := ((x0 - x1) * dx + (y0 - y1) * dy) / (dx * dx + dy * dy)
    let t := max 0 (min 1 t)
    let closest_x := x1 + t * dx
    let closest_y := y1 + t * dy
    Real.sqrt ((x0 - closest_x) ^ 2 + (y0 - closest_y) ^ 2)

/-- Severity weighting inside `_get_traffic_factor`'s incident loop: "low"
×1.2, "medium" ×1.5, anything else ×2.0 (the source's `else` arm). -/
noncomputable def severity_multiplier (severity : String) : ℝ :=
  if severity = "low" then 1.2 else if severity = "medium" then 1.5 else 2.0

open Classical in
/-- `RouteOptimizationAgent._get_traffic_factor`, translated line by line:
base 1.0 plus `density * 1.5` (density read with `dict.get` default 0.5),
multiplied by the severity weight of each incident whose
`_distance_to_route` is below 0.01 degrees (≈1 km), floored at 1.0. -/
noncomputable def get_traffic_factor (start finish : ℝ × ℝ)
    (traffic_conditions : TrafficConditions) : ℝ :=
  let base_factor : ℝ := 1.0
  let density := traffic_conditions.density.getD 0.5
  let base_factor := base_factor + density * 1.5
  let base_factor := traffic_conditions.incidents.foldl (fun b incident =>
    let incident_loc := incident.location.getD (0, 0)
    let dist_to_route := distance_to_route start finish incident_loc
    if dist_to_route < 0.01 then
      b * severity_multiplier (incident.severity.getD "medium")
    else b) base_factor
  max 1.0 base_factor

open Classical in
/-- Product of the severity multipliers of the incidents within the 0.01°
corridor of the leg — the closed form of the source's incident loop. -/
noncomputable def incident_product (start finish : ℝ × ℝ) : List Incident → ℝ
  | [] => 1
  | incident :: rest =>
      (if distance_to_route start finish (incident.location.getD (0, 0)) < 0.01
        then severity_multiplier (incident.severity.getD "medium") else 1) *
        incident_product start finish rest

/-- An empty traffic dictionary: no density key, no incidents. -/
def no_traffic_data : TrafficConditions := { density := none, incidents := [] }

/-! ### Haversine distance (RouteOptimizationAgent._haversine) -/

/-- Degrees-to-radians conversion used by `_haversine`. -/
noncomputable def radians (x : ℝ) : ℝ := x * Real.pi / 180

/-- `RouteOptimizationAgent._haversine`: great-circle distance in km with
Earth radius 6371. -/
noncomputable def haversine (coord1 coord2 : ℝ × ℝ) : ℝ :=
  let lat1 := radians coord1.1
  let lon1 := radians coord1.2
  let lat2 := radians coord2.1
  let lon2 := radians coord2.2
  let dlon := lon2 - lon1
  let dlat := lat2 - lat1
  let a := Real.sin (dlat / 2) ^ 2 +
    Real.cos lat1 * Real.cos lat2 * Real.sin (dlon / 2) ^ 2
  let c := 2 * Real.arcsin (Real.sqrt a)
  c * 6371

/-! ### RouteOptimizer (ml/route_optimization/optimizer.py)

The optimizer touches stops only through `_calculate_distance`, which
delegates to the external `geopy.distance.geodesic` collaborator, so the
embedding is parametric in the point type `P` and in the linearly ordered
distance codomain `D` (`ℚ` models the source's floats; concrete test
instances use `ℕ` labels with a number-line metric). -/

/-- A Python exception surfaced by the optimizer. -/
inductive PyError
  | nameError
  deriving DecidableEq, Repr

/-- Vehicle record fields read by `optimize_routes` (`type` is rendered
`vtype`). -/
structure Vehicle where
  id : String
  vtype : String
  deriving DecidableEq, Repr

/-- One route dict of the response.  `stops` is
`[route_stops[i] for i in optimal_order]`; `legs_scored` is the number of
leg iterations `range(len(route) - 1)` run by `_calculate_route_metrics`
over that same list (the per-leg distance/time values come from the
external road-graph collaborator and are not modelled). -/
structure VehicleRoute (P : Type) where
  vehicle_id : String
  vehicle_type : String
  stops : List P
  legs_scored : Nat
  deriving DecidableEq, Repr

/-- The response of `optimize_routes`: the dict has only the keys `routes`
and `summary`; there is no `unassigned_stops` list (the summary aggregates
depend on the external road-graph collaborator and are not modelled). -/
structure RoutingSolution (P : Type) where
  routes : List (VehicleRoute P)
  deriving DecidableEq, Repr

deriving instance DecidableEq for Except

section Optimizer

variable {P : Type} [Inhabited P] {D : Type} [LinearOrder D]

/-- Round-robin phase of `RouteOptimizer._cluster_stops`: the loop
`clusters[i % num_clusters].append(stop)` leaves cluster `j` holding, in
input order, exactly the stops whose index is ≡ j (mod num_clusters). -/
def round_robin (stops : List P) (num_clusters : Nat) : List (List P) :=
  (List.range num_clusters).map (fun j =>
    (stops.enum.filter (fun p => p.1 % num_clusters = j)).map Prod.snd)

/-- Splitting phase of `_cluster_stops`: `while len(cluster) > max_per:`
emit `cluster[:max_per]` and continue with `cluster[max_per:]`, finally
emitting the remainder if non-empty.  (With `max_per = 0` and a non-empty
cluster the source loops forever; the model is only used with a positive
`max_stops_per_vehicle`.) -/
def split_cluster (max_per : Nat) (cluster : List P) : List (List P) :=
  if _h : 0 < max_per ∧ max_per < cluster.length then
    cluster.take max_per :: split_cluster max_per (cluster.drop max_per)
  else if cluster.isEmpty then [] else [cluster]
termination_by cluster.length
decreasing_by
  simp only [List.length_drop]
  omega

/-- `RouteOptimizer._cluster_stops`: round-robin assignment followed by
overflow splitting, concatenated in cluster order. -/
def cluster_stops (stops : List P) (num_clusters : Nat) (max_per_cluster : Nat) :
    List (List P) :=
  (round_robin stops num_clusters).flatMap (split_cluster max_per_cluster)

/-- `RouteOptimizer._brute_force_tsp`: its first statement evaluates the
undefined name `num_steps` (a typo for the `num_stops` bound two lines
above), so every call raises `NameError` before any search happens. -/
def brute_force_tsp (_dist : P → P → D) (_stops : List P) :
    Except PyError (List Nat) :=
  .error .nameError

/-- Body of `_nearest_neighbor_tsp`'s inner scan: update the running
nearest index when the distance from `stops[last]` is strictly smaller
(the running `min_dist` always equals the distance to the running
nearest, so comparing distances directly is the same test). -/
def nearest_step (dist : P → P → D) (stops : List P) (last : Nat)
    (nearest : Option Nat) (j : Nat) : Option Nat :=
  match nearest with
  | none => some j
  | some k =>
      if dist (stops.getI last) (stops.getI j) <
          dist (stops.getI last) (stops.getI k) then some j
      else nearest

/-- The inner scan of `_nearest_neighbor_tsp`
(`for j in range(num_stops): if not visited[j]: ...`): ascending scan
keeping the strictly smaller distance, so the first unvisited index
attaining the minimum wins; `none` iff no unvisited index remains. -/
def select_nearest (dist : P → P → D) (stops : List P) (last : Nat)
    (unvisited : List Nat) : Option Nat :=
  unvisited.foldl (nearest_step dist stops last) none

/-- The `for _ in range(1, num_stops)` loop of `_nearest_neighbor_tsp`:
`k` remaining iterations, the path built so far (`last = path[-1]`), and
the ascending list of unvisited indices. -/
def nn_loop (dist : P → P → D) (stops : List P) :
    Nat → List Nat → List Nat → List Nat
  | 0, path, _ => path
  | k + 1, path, unvisited =>
      match select_nearest dist stops (path.getLastD 0) unvisited with
      | none => nn_loop dist stops k path unvisited
      | some j =>
          nn_loop dist stops k (path ++ [j]) (unvisited.filter (fun x => x ≠ j))

/-- `RouteOptimizer._nearest_neighbor_tsp`: start at index 0, repeatedly
append the nearest unvisited index, and return `path[1:]`.  (The source
would raise an IndexError on an empty stop list; it is only called with
at least nine stops.) -/
def nearest_neighbor_tsp (dist : P → P → D) (stops : List P) : List Nat :=
  (nn_loop dist stops (stops.length - 1) [0]
    ((List.range stops.length).filter (fun x => x ≠ 0))).drop 1

/-- `RouteOptimizer._solve_tsp`: brute force for at most 8 stops, nearest
neighbor above. -/
def solve_tsp (dist : P → P → D) (stops : List P) : Except PyError (List Nat) :=
  if stops.length ≤ 8 then brute_force_tsp dist stops
  else .ok (nearest_neighbor_tsp dist stops)

/-- The `for i, (vehicle, vehicle_stops) in enumerate(zip(vehicles,
clusters))` loop of `optimize_routes`: empty clusters are skipped
(`continue`), each remaining cluster is wrapped `[depot] + stops +
[depot]`, ordered by `_solve_tsp` (whose `NameError` aborts the whole
call), and re-indexed into the output `stops` list. -/
def build_routes (dist : P → P → D) (depot : P) :
    List (Vehicle × List P) → Except PyError (List (VehicleRoute P))
  | [] => .ok []
  | (vehicle, vehicle_stops) :: rest =>
      if vehicle_stops.isEmpty then build_routes dist depot rest
      else
        (solve_tsp dist (depot :: vehicle_stops ++ [depot])).bind fun optimal_order =>
          (build_routes dist depot rest).map fun routes =>
            let route_stops := depot :: vehicle_stops ++ [depot]
            let out_stops := optimal_order.map (fun i => route_stops.getD i depot)
            { vehicle_id := vehicle.id
              vehicle_type := vehicle.vtype
              stops := out_stops
              legs_scored := out_stops.length - 1 } :: routes

/-- `RouteOptimizer.optimize_routes` (road-network fetch and per-route
metric aggregation are external collaborators): cluster the stops, pair
them with the vehicles via `zip` — clusters beyond `len(vehicles)` are
discarded by `zip` — and build each route. -/
def optimize_routes (dist : P → P → D) (vehicles : List Vehicle)
    (stops : List P) (depot : P) (max_stops_per_vehicle : Nat) :
    Except PyError (RoutingSolution P) :=
  let clusters := cluster_stops stops vehicles.length max_stops_per_vehicle
  (build_routes dist depot (vehicles.zip clusters)).map
    (fun routes => { routes := routes })

/-- Everything `build_routes` establishes for one emitted route and the
vehicle/cluster pair it came from: identity fields copied, the reported
stop sequence a permutation of the assigned cluster plus a single extra
depot copy, the leg count equal to the cluster size, and — because the
brute-force branch always raises — a cluster size of at least 7. -/
def RoutePairSpec (depot : P) (r : VehicleRoute P) (vc : Vehicle × List P) : Prop :=
  r.vehicle_id = vc.1.id ∧ r.vehicle_type = vc.1.vtype ∧
  List.Perm r.stops (vc.2 ++ [depot]) ∧
  r.stops.length = vc.2.length + 1 ∧
  r.legs_scored = vc.2.length ∧
  7 ≤ vc.2.length

end Optimizer

/-- Number-line metric on `ℕ` stop labels, standing in for the external
geodesic collaborator in concrete test instances. -/
def line_dist (i j : ℕ) : ℕ := max i j - min i j

/-- One-vehicle fleet for the concrete instances. -/
def demo_vehicle : Vehicle := { id := "T1", vtype := "truck" }

/-- Fourteen stops on the number line, depot at 0,
`max_stops_per_vehicle = 7`: clustering yields `[1..7]` and the overflow
cluster `[8..14]`. -/
def stops14 : List ℕ := [1, 2, 3, 4, 5, 6, 7, 8, 9, 10, 11, 12, 13, 14]

/-- Seven stops on the number line, depot at 0: a single cluster, routed
through the nearest-neighbor branch. -/
def stops7 : List ℕ := [1, 2, 3, 4, 5, 6, 7]

/-- The route the optimizer returns for `stops14` (and for `stops7`): the
duplicate depot copy leads the sequence, the boundary depots are gone,
and seven legs are scored. -/
def route7 : VehicleRoute ℕ :=
  { vehicle_id := "T1", vehicle_type := "truck"
    stops := [0, 1, 2, 3, 4, 5, 6, 7], legs_scored := 7 }

/-! ### The intended brute force (`_brute_force_tsp` with the typo fixed)

The remaining development settles what `_brute_force_tsp` was meant to
compute: with `num_steps` corrected to `num_stops`, the loop is an exact
brute force over `itertools.permutations(range(1, num_stops))` in
lexicographic order, keeping the first strict improvement. -/

section BruteForce

variable {P : Type} [Inhabited P] {D : Type} [LinearOrder D] {α : Type}

/-- Total distance of an index path: the source's
`sum(self._calculate_distance(stops[path[i]], stops[path[i+1]]) for i in
range(len(path)-1))`. -/
def path_distance [AddCommMonoid D] (dist : P → P → D) (stops : List P) :
    List Nat → D
  | i :: j :: rest =>
      dist (stops.getI i) (stops.getI j) + path_distance dist stops (j :: rest)
  | _ => 0

/-- The permutations of a list in the order `itertools.permutations`
emits them: lexicographic with respect to the input order. -/
def perms_lex : List Nat → List (List Nat)
  | [] => [[]]
  | a :: rest =>
      (a :: rest).attach.flatMap (fun x =>
        (perms_lex ((a :: rest).erase x.1)).map (fun p => x.1 :: p))
termination_by l => l.length
decreasing_by
  have hx := x.2
  have hl := List.length_erase_of_mem hx
  simp only [hl, List.length_cons]
  omega

/-- One step of the (typo-fixed) brute-force loop: replace the running
best only on a strictly smaller key (`if distance < best_distance`), so
the first minimiser wins; the running `best_distance` is always the key
of the running `best_path`. -/
def best_step (f : α → D) (best : Option α) (x : α) : Option α :=
  match best with
  | none => some x
  | some b => if f x < f b then some x else best

/-- The whole strict-improvement fold, started from
`best_path, best_distance = None, inf`. -/
def fold_best (f : α → D) (l : List α) : Option α :=
  l.foldl (best_step f) none

/-- Modelled from the spec (and the surrounding source):
`_brute_force_tsp` with the undefined name `num_steps` corrected to
`num_stops` — the exact search its docstring and the `_solve_tsp`
dispatch intend.  The loop is the strict-improvement fold over the
lexicographic permutations of `range(1, num_stops)`, each wrapped
`[0] + perm + [0]` for scoring, and the winner is returned as
`best_path[1:-1]`. -/
def brute_force_tsp_fixed [AddCommMonoid D] (dist : P → P → D)
    (stops : List P) : List Nat :=
  let num_stops := stops.length
  if num_stops ≤ 1 then List.range num_stops
  else
    match fold_best (fun perm => path_distance dist stops (0 :: perm ++ [0]))
        (perms_lex (List.range' 1 (num_stops - 1))) with
    | some best_perm => ((0 :: best_perm ++ [0]).drop 1).dropLast
    | none => []

end BruteForce

/-! ## Theorems -/

/-- C6: the computed fuel equals
base rate × load factor × speed factor × elevation factor × road factor
/ 100 × distance, with the documented table values, elevation factor 1
at zero gain, road factor 1.2 for "average", emissions = fuel × 2.31,
and unknown vehicle types falling back to the default 10 l/100km rate. -/
theorem fuel_consumption_formula (distance_km : ℚ) (vehicle_type : String)
    (load_kg avg_speed_kmh elevation_gain_m : ℚ) (road_condition : String)
    (s : String) :
    (calculate_fuel_consumption distance_km vehicle_type load_kg avg_speed_kmh
        elevation_gain_m road_condition).total_fuel_liters =
      base_consumption vehicle_type.toLower * (1 + 0.001 * load_kg) *
        (1 + max 0 (avg_speed_kmh - 60) * 0.001) *
        (1 + (elevation_gain_m / 10) * 0.1 / 100) *
        (1 + road_condition_increment road_condition.toLower) / 100 * distance_km ∧
    (calculate_fuel_consumption distance_km vehicle_type load_kg avg_speed_kmh
        elevation_gain_m road_condition).emissions_kg_co2 =
      (calculate_fuel_consumption distance_km vehicle_type load_kg avg_speed_kmh
        elevation_gain_m road_condition).total_fuel_liters * 2.31 ∧
    (calculate_fuel_consumption distance_km vehicle_type load_kg avg_speed_kmh
        0 road_condition).elevation_factor = 1 ∧
    road_condition_increment "average" = 0.2 ∧
    base_consumption "sedan" = 7.5 ∧ base_consumption "suv" = 10 ∧
    base_consumption "truck" = 25 ∧ base_consumption "van" = 12 ∧
    (calculate_fuel_consumption distance_km vehicle_type load_kg avg_speed_kmh
        elevation_gain_m road_condition).base_consumption_l_per_100km =
      base_consumption vehicle_type.toLower ∧
    (s ≠ "sedan" → s ≠ "suv" → s ≠ "truck" → s ≠ "van" →
      base_consumption s = 10) := by
  refine ⟨?_, rfl, ?_, by simp [road_condition_increment],
    by simp [base_consumption], by simp [base_consumption]; norm_num,
    by simp [base_consumption]; norm_num, by simp [base_consumption]; norm_num,
    rfl, ?_⟩
  · simp only [calculate_fuel_consumption]
    ring
  · simp only [calculate_fuel_consumption]
    norm_num
  · intro h1 h2 h3 h4
    simp only [base_consumption, if_neg h1, if_neg h2, if_neg h3, if_neg h4]
    norm_num

/-- Witness for `fuel_consumption_formula` at a concrete unknown vehicle type. -/
theorem fuel_consumption_formula_witness :
    base_consumption "rickshaw" = 10 :=
  (fuel_consumption_formula 100 "truck" 0 50 0 "average" "rickshaw").2.2.2.2.2.2.2.2.2
    (by decide) (by decide) (by decide) (by decide)

theorem one_le_condition_factor (c : String) : 1 ≤ condition_factor c := by
  unfold condition_factor
  split <;> norm_num

theorem precip_chain_eq_max (f p : ℚ) (hf : 1 ≤ f) :
    (if p > 10 then max f 1.7 else if p > 5 then max f 1.5
      else if p > 2 then max f 1.2 else f) = max f (precipitation_clamp p) := by
  unfold precipitation_clamp
  split_ifs <;> simp [max_eq_left hf]

theorem wind_chain_eq_max (f ws : ℚ) (hf : 1 ≤ f) :
    (if ws > 50 then max f 2.0 else if ws > 30 then max f 1.5
      else if ws > 20 then max f 1.2 else f) = max f (wind_clamp ws) := by
  unfold wind_clamp
  split_ifs <;> simp [max_eq_left hf]

theorem visibility_chain_eq_max (f v : ℚ) (hf : 1 ≤ f) :
    (if v < 0.1 then max f 2.0 else if v < 0.5 then max f 1.7
      else if v < 1 then max f 1.3 else f) = max f (visibility_clamp v) := by
  unfold visibility_clamp
  split_ifs <;> simp [max_eq_left hf]

theorem temperature_chain_eq_max (f t : ℚ) (hf : 1 ≤ f) :
    (if t > 35 ∨ t < -5 then max f 1.3 else f) = max f (temperature_clamp t) := by
  unfold temperature_clamp
  split_ifs <;> simp [max_eq_left hf]

/-- C5: the weather factor equals the maximum of the condition-table base
value and the applicable precipitation, wind, visibility and temperature
threshold values (each a max-clamp), and is never below 1. -/
theorem weather_factor_is_worst_subfactor (w : WeatherRecord) :
    get_weather_factor w =
      max (condition_factor ((w.condition.getD "clear").toLower))
        (max (precipitation_clamp (w.precipitation.getD 0))
          (max (wind_clamp (w.wind_speed.getD 0))
            (max (visibility_clamp (w.visibility.getD 10))
              (temperature_clamp (w.temperature.getD 20))))) ∧
    1 ≤ get_weather_factor w := by
  have hb : 1 ≤ condition_factor ((w.condition.getD "clear").toLower) :=
    one_le_condition_factor _
  have key : get_weather_factor w =
      max (condition_factor ((w.condition.getD "clear").toLower))
        (max (precipitation_clamp (w.precipitation.getD 0))
          (max (wind_clamp (w.wind_speed.getD 0))
            (max (visibility_clamp (w.visibility.getD 10))
              (temperature_clamp (w.temperature.getD 20))))) := by
    simp only [get_weather_factor]
    rw [precip_chain_eq_max _ _ hb]
    rw [wind_chain_eq_max _ _ (le_trans hb (le_max_left _ _))]
    rw [visibility_chain_eq_max _ _ (le_trans (le_trans hb (le_max_left _ _)) (le_max_left _ _))]
    rw [temperature_chain_eq_max _ _
      (le_trans (le_trans (le_trans hb (le_max_left _ _)) (le_max_left _ _)) (le_max_left _ _))]
    have h10 : (1.0 : ℚ) = 1 := by norm_num
    rw [h10, max_eq_right
      (le_trans (le_trans (le_trans (le_trans hb (le_max_left _ _)) (le_max_left _ _))
        (le_max_left _ _)) (le_max_left _ _))]
    simp [max_assoc]
  exact ⟨key, key ▸ le_trans hb (le_max_left _ _)⟩

theorem lookup_map_update {β : Type} (id : String) (new : β)
    (l : List (String × β)) (h : (l.lookup id).isSome) :
    (l.map (fun kv => if kv.1 = id then (kv.1, new) else kv)).lookup id =
      some new := by
  induction l with
  | nil => simp [List.lookup] at h
  | cons kv t ih =>
      obtain ⟨k, v⟩ := kv
      rw [List.map_cons]
      by_cases hk : k = id
      · subst hk
        rw [if_pos rfl]
        simp [List.lookup]
      · have hne : (id == k) = false := by
          rw [beq_eq_false_iff_ne]
          exact fun he => hk he.symm
        rw [if_neg hk]
        simp only [List.lookup, hne] at h ⊢
        exact ih h

/-- C7: pushing into a full bounded queue never blocks — the push is a
total state update that evicts the oldest frame, keeps the queue at
capacity, and always retains the newly pushed frame as the most recent
entry. -/
theorem put_frame_drop_oldest {α : Type} (maxsize : Nat) (q : List α) (f : α)
    (hcap : 0 < maxsize) :
    (put_frame maxsize q f).getLast? = some f ∧
    (q.length = maxsize →
      put_frame maxsize q f = q.drop 1 ++ [f] ∧
      (put_frame maxsize q f).length = maxsize) ∧
    (q.length ≤ maxsize → (put_frame maxsize q f).length ≤ maxsize) := by
  refine ⟨?_, ?_, ?_⟩
  · unfold put_frame
    split
    · simp
    · match q with
      | [] =>
          rename_i hcond
          exact absurd (Or.inr (by simpa using hcap)) hcond
      | _ :: rest => simp
  · intro hfull
    unfold put_frame
    rw [if_neg (by omega)]
    match q with
    | [] => simp at hfull; omega
    | x :: rest =>
        refine ⟨rfl, ?_⟩
        simp at hfull ⊢
        omega
  · intro hle
    unfold put_frame
    split
    · rename_i hcond
      rcases hcond with h0 | hlt
      · omega
      · simp
        omega
    · match q with
      | [] => simp
      | x :: rest =>
          simp at hle ⊢
          omega

/-- Witness for `put_frame_drop_oldest`: capacity 2, full queue `[10, 11]`,
pushing 12 evicts 10 and retains 12. -/
theorem put_frame_drop_oldest_witness :
    (put_frame 2 [10, 11] 12).getLast? = some 12 ∧
    put_frame 2 [10, 11] 12 = [11, 12] := by
  have h := put_frame_drop_oldest 2 [10, 11] 12 (by norm_num)
  exact ⟨h.1, by simpa using (h.2.1 (by simp)).1⟩

/-- C9 counterexample: re-registering "cam1" returns `.ok` with the state
unchanged — no `SourceAlreadyExists` error is produced. -/
theorem add_camera_duplicate_not_error :
    add_camera demoManagerState "cam1" (some 9) = .ok demoManagerState := by
  simp [add_camera, demoManagerState, List.lookup]

/-- C9 (amended): registering an already-registered source id is a silent
no-op — the call returns successfully and the existing registration
(queue, callback, per-source state) is left unchanged. -/
theorem add_camera_duplicate_noop (s : ManagerState) (camera_id : String)
    (callback : Option Nat) (h : (s.camera_queues.lookup camera_id).isSome) :
    add_camera s camera_id callback = .ok s := by
  unfold add_camera
  rw [if_pos h]

/-- Witness for `add_camera_duplicate_noop` on the demo state. -/
theorem add_camera_duplicate_noop_witness :
    (demoManagerState.camera_queues.lookup "cam2").isSome = true ∧
    add_camera demoManagerState "cam2" none = .ok demoManagerState := by
  have hs : (demoManagerState.camera_queues.lookup "cam2").isSome = true := by
    simp [demoManagerState, List.lookup]
  exact ⟨hs, add_camera_duplicate_noop demoManagerState "cam2" none hs⟩

/-- C8 counterexample: a detection-collaborator failure on a frame from
registered "cam1" overwrites the stored traffic conditions with the empty
result — the last known value `some {12, 1, congested}` is cleared, not
kept. -/
theorem detection_failure_clears_conditions :
    (process_camera_frame demoAgentState "cam1" (.error .failure) 7).camera_data =
      [("cam1", { last_update := 7, traffic_conditions := none })] ∧
    demoAgentState.camera_data =
      [("cam1", { last_update := 3
                  traffic_conditions :=
                    some { vehicle_count := 12, density := 1, is_congested := true } })] := by
  constructor
  · simp [process_camera_frame, demoAgentState, analyze_traffic, List.lookup]
  · rfl

/-- C8 (amended): when the detection collaborator fails, the error is
absorbed (the frame is discarded, nothing propagates), but the registered
source's `traffic_conditions` entry is overwritten with the empty result —
the last-known value is cleared rather than kept; unregistered sources are
untouched. -/
theorem detection_failure_overwrites (s : AgentState) (camera_id : String)
    (err : DetectionError) (now : Nat)
    (h : (s.camera_data.lookup camera_id).isSome) :
    analyze_traffic (.error err) = none ∧
    (process_camera_frame s camera_id (.error err) now).camera_data.lookup camera_id =
      some { last_update := now, traffic_conditions := none } := by
  refine ⟨rfl, ?_⟩
  unfold process_camera_frame
  match hl : s.camera_data.lookup camera_id with
  | none => rw [hl] at h; simp at h
  | some e =>
      simp only
      exact lookup_map_update camera_id _ s.camera_data (by rw [hl]; rfl)

/-- Witness for `detection_failure_overwrites` on the demo agent state. -/
theorem detection_failure_overwrites_witness :
    (process_camera_frame demoAgentState "cam1" (.error .failure) 9).camera_data.lookup "cam1" =
      some { last_update := 9, traffic_conditions := none } :=
  (detection_failure_overwrites demoAgentState "cam1" .failure 9
    (by simp [demoAgentState, List.lookup])).2

open Classical in
theorem incident_foldl_eq_mul_product (start finish : ℝ × ℝ)
    (l : List Incident) (b0 : ℝ) :
    l.foldl (fun b incident =>
      let incident_loc := incident.location.getD (0, 0)
      let dist_to_route := distance_to_route start finish incident_loc
      if dist_to_route < 0.01 then
        b * severity_multiplier (incident.severity.getD "medium")
      else b) b0 = b0 * incident_product start finish l := by
  induction l generalizing b0 with
  | nil => simp [incident_product]
  | cons incident rest ih =>
      rw [List.foldl_cons, ih, incident_product]
      simp only
      split_ifs with h
      · ring
      · ring

theorem traffic_factor_empty (start finish : ℝ × ℝ) :
    get_traffic_factor start finish no_traffic_data = 1.75 := by
  simp only [get_traffic_factor, no_traffic_data, Option.getD, List.foldl_nil]
  rw [max_eq_right (by norm_num)]
  norm_num

/-- C3 counterexample: with no traffic data supplied the density defaults
to 0.5 and the traffic factor is 1.75, not 1.0. -/
theorem traffic_factor_default_not_one :
    get_traffic_factor (0, 0) (1, 1) no_traffic_data = 1.75 ∧
    (1.75 : ℝ) ≠ 1 :=
  ⟨traffic_factor_empty (0, 0) (1, 1), by norm_num⟩

/-- C3 (amended): the traffic factor equals
`max 1 ((1 + density·1.5) · ∏ severity multipliers of incidents within
≈1 km of the leg)`, where a missing density defaults to 0.5 — so an empty
traffic dictionary yields 1.75, not 1.0 — and the factor is never below
1. -/
theorem traffic_factor_formula (start finish : ℝ × ℝ)
    (tc : TrafficConditions) :
    get_traffic_factor start finish tc =
      max 1 ((1 + tc.density.getD 0.5 * 1.5) *
        incident_product start finish tc.incidents) ∧
    1 ≤ get_traffic_factor start finish tc ∧
    get_traffic_factor start finish no_traffic_data = 1.75 := by
  have key : get_traffic_factor start finish tc =
      max 1 ((1 + tc.density.getD 0.5 * 1.5) *
        incident_product start finish tc.incidents) := by
    simp only [get_traffic_factor]
    rw [incident_foldl_eq_mul_product]
    norm_num
  refine ⟨key, ?_, traffic_factor_empty start finish⟩
  rw [key]
  exact le_max_left _ _

/-- C10: the haversine distance is symmetric and vanishes on the
diagonal. -/
theorem haversine_symm_and_self (a b : ℝ × ℝ) :
    haversine a b = haversine b a ∧ haversine a a = 0 := by
  have hsin : ∀ u v : ℝ, Real.sin ((u - v) / 2) ^ 2 = Real.sin ((v - u) / 2) ^ 2 := by
    intro u v
    rw [show (u - v) / 2 = -((v - u) / 2) by ring, Real.sin_neg]
    ring
  constructor
  · simp only [haversine]
    rw [hsin (radians b.1) (radians a.1), hsin (radians b.2) (radians a.2),
      mul_comm (Real.cos (radians a.1)) (Real.cos (radians b.1))]
  · simp only [haversine, sub_self, zero_div, Real.sin_zero]
    norm_num

section OptimizerLemmas

variable {P : Type} [Inhabited P] {D : Type} [LinearOrder D]

theorem nearest_step_some (dist : P → P → D) (stops : List P) (last : Nat)
    (acc : Option Nat) (x : Nat) :
    ∃ j, nearest_step dist stops last acc x = some j ∧ (acc = some j ∨ j = x) := by
  match acc with
  | none => exact ⟨x, rfl, Or.inr rfl⟩
  | some k =>
      by_cases h : dist (stops.getI last) (stops.getI x) <
          dist (stops.getI last) (stops.getI k)
      · exact ⟨x, by simp [nearest_step, h], Or.inr rfl⟩
      · exact ⟨k, by simp [nearest_step, h], Or.inl rfl⟩

theorem foldl_nearest_some (dist : P → P → D) (stops : List P) (last : Nat) :
    ∀ (u : List Nat) (acc : Option Nat), acc.isSome = true ∨ u ≠ [] →
      ∃ j, u.foldl (nearest_step dist stops last) acc = some j ∧
        (acc = some j ∨ j ∈ u) := by
  intro u
  induction u with
  | nil =>
      intro acc hacc
      rcases hacc with hs | hne
      · match acc, hs with
        | some j, _ => exact ⟨j, rfl, Or.inl rfl⟩
      · exact absurd rfl hne
  | cons x xs ih =>
      intro acc _
      obtain ⟨j0, hj0, hj0d⟩ := nearest_step_some dist stops last acc x
      obtain ⟨j, hj, hjd⟩ := ih (some j0) (Or.inl rfl)
      refine ⟨j, ?_, ?_⟩
      · rw [List.foldl_cons, hj0, hj]
      · rcases hjd with hh | hmem
        · injection hh with h0
          subst h0
          rcases hj0d with ha | hx
          · exact Or.inl ha
          · exact Or.inr (hx ▸ List.mem_cons_self _ _)
        · exact Or.inr (List.mem_cons_of_mem _ hmem)

theorem select_nearest_spec (dist : P → P → D) (stops : List P) (last : Nat)
    (u : List Nat) (hne : u ≠ []) :
    ∃ j, select_nearest dist stops last u = some j ∧ j ∈ u := by
  obtain ⟨j, hj, hd⟩ := foldl_nearest_some dist stops last u none (Or.inr hne)
  refine ⟨j, hj, ?_⟩
  rcases hd with h | h
  · exact Option.noConfusion h
  · exact h

theorem nn_loop_eq_append (dist : P → P → D) (stops : List P) :
    ∀ (k : Nat) (path unvisited : List Nat),
      ∃ ext, nn_loop dist stops k path unvisited = path ++ ext := by
  intro k
  induction k with
  | zero => intro path u; exact ⟨[], by simp [nn_loop]⟩
  | succ k ih =>
      intro path u
      cases hsel : select_nearest dist stops (path.getLastD 0) u with
      | none =>
          obtain ⟨ext, hext⟩ := ih path u
          exact ⟨ext, by simp only [nn_loop, hsel]; exact hext⟩
      | some j =>
          obtain ⟨ext, hext⟩ := ih (path ++ [j]) (u.filter (fun x => x ≠ j))
          refine ⟨j :: ext, ?_⟩
          simp only [nn_loop, hsel]
          rw [hext, List.append_assoc]
          rfl

theorem nn_loop_perm (dist : P → P → D) (stops : List P) :
    ∀ (k : Nat) (path unvisited : List Nat), unvisited.Nodup →
      unvisited.length ≤ k →
      List.Perm (nn_loop dist stops k path unvisited) (path ++ unvisited) := by
  intro k
  induction k with
  | zero =>
      intro path u _ hlen
      have hu : u = [] := List.eq_nil_of_length_eq_zero (Nat.le_zero.mp hlen)
      subst hu
      simp [nn_loop]
  | succ k ih =>
      intro path u hnd hlen
      match u with
      | [] =>
          have hsel : select_nearest dist stops (path.getLastD 0) ([] : List Nat) = none := rfl
          simp only [nn_loop, hsel]
          simpa using ih path [] (by simp) (by simp)
      | x :: xs =>
          obtain ⟨j, hsel, hjmem⟩ :=
            select_nearest_spec dist stops (path.getLastD 0) (x :: xs) (by simp)
          simp only [nn_loop, hsel]
          have hfilter : (x :: xs).filter (fun y => y ≠ j) = (x :: xs).erase j := by
            rw [hnd.erase_eq_filter]
            apply List.filter_congr
            intro y _
            by_cases hyj : y = j <;> simp [hyj, bne]
          rw [hfilter]
          have hlen2 : ((x :: xs).erase j).length ≤ k := by
            rw [List.length_erase_of_mem hjmem]
            simp only [List.length_cons] at hlen ⊢
            omega
          have h1 := ih (path ++ [j]) ((x :: xs).erase j) (hnd.erase j) hlen2
          refine h1.trans ?_
          rw [List.append_assoc]
          exact List.Perm.append_left path (List.perm_cons_erase hjmem).symm

theorem range_filter_ne_zero (n : Nat) :
    (List.range (n + 1)).filter (fun x => x ≠ 0) = (List.range n).map Nat.succ := by
  rw [List.range_succ_eq_map]
  simp

theorem map_getD_range {α : Type} (l : List α) (d : α) :
    (List.range l.length).map (fun i => l.getD i d) = l := by
  induction l with
  | nil => rfl
  | cons a t ih =>
      rw [show (a :: t).length = t.length + 1 from rfl, List.range_succ_eq_map,
        List.map_cons, List.map_map]
      congr 1

theorem nearest_neighbor_tsp_spec (dist : P → P → D) (stops : List P) (n : Nat)
    (hn : stops.length = n + 1) :
    List.Perm (nearest_neighbor_tsp dist stops) ((List.range n).map Nat.succ) ∧
    (nearest_neighbor_tsp dist stops).length = n := by
  unfold nearest_neighbor_tsp
  rw [hn, range_filter_ne_zero n]
  simp only [Nat.add_sub_cancel]
  have hnd : ((List.range n).map Nat.succ).Nodup :=
    (List.nodup_range n).map (fun a b h => Nat.succ_injective h)
  have hlen : ((List.range n).map Nat.succ).length = n := by simp
  have hperm := nn_loop_perm dist stops n [0] ((List.range n).map Nat.succ) hnd
    (by rw [hlen])
  obtain ⟨ext, hext⟩ := nn_loop_eq_append dist stops n [0] ((List.range n).map Nat.succ)
  rw [hext] at hperm ⊢
  have hperm2 : List.Perm ext ((List.range n).map Nat.succ) :=
    (List.perm_append_left_iff [0]).mp hperm
  constructor
  · simpa using hperm2
  · simpa using hperm2.length_eq

theorem except_bind_ok {ε α β : Type} (a : α) (f : α → Except ε β) :
    (Except.ok a : Except ε α).bind f = f a := rfl

theorem except_map_ok {ε α β : Type} (a : α) (f : α → β) :
    (Except.ok a : Except ε α).map f = .ok (f a) := rfl

theorem except_map_error {ε α β : Type} (e : ε) (f : α → β) :
    (Except.error e : Except ε α).map f = .error e := rfl

theorem build_routes_spec (dist : P → P → D) (depot : P) :
    ∀ (pairs : List (Vehicle × List P)) (routes : List (VehicleRoute P)),
      build_routes dist depot pairs = .ok routes →
      List.Forall₂ (RoutePairSpec depot) routes
        (pairs.filter (fun vc => !vc.2.isEmpty)) := by
  intro pairs
  induction pairs with
  | nil =>
      intro routes h
      simp only [build_routes] at h
      injection h with h
      subst h
      exact List.Forall₂.nil
  | cons vc rest ih =>
      intro routes h
      obtain ⟨vehicle, cl⟩ := vc
      by_cases hcl : cl.isEmpty
      · simp only [build_routes, if_pos hcl] at h
        have hf : (((vehicle, cl) :: rest).filter (fun vc => !vc.2.isEmpty)) =
            rest.filter (fun vc => !vc.2.isEmpty) := by
          simp [hcl]
        rw [hf]
        exact ih routes h
      · simp only [build_routes, if_neg hcl] at h
        have hslen : (depot :: cl ++ [depot]).length = cl.length + 2 := by simp
        by_cases hlen : (depot :: cl ++ [depot]).length ≤ 8
        · rw [show solve_tsp dist (depot :: cl ++ [depot]) =
              (.error .nameError : Except PyError (List Nat)) from by
            unfold solve_tsp
            rw [if_pos hlen]
            rfl] at h
          exact Except.noConfusion h
        · rw [show solve_tsp dist (depot :: cl ++ [depot]) =
              .ok (nearest_neighbor_tsp dist (depot :: cl ++ [depot])) from by
            unfold solve_tsp
            rw [if_neg hlen]] at h
          rw [except_bind_ok] at h
          cases hrec : build_routes dist depot rest with
          | error e =>
              rw [hrec, except_map_error] at h
              exact Except.noConfusion h
          | ok rs =>
              rw [hrec, except_map_ok] at h
              injection h with h
              subst h
              have hf : (((vehicle, cl) :: rest).filter (fun vc => !vc.2.isEmpty)) =
                  (vehicle, cl) :: rest.filter (fun vc => !vc.2.isEmpty) := by
                simp [hcl]
              rw [hf]
              refine List.Forall₂.cons ?_ (ih rs hrec)
              have hcl7 : 7 ≤ cl.length := by
                rw [hslen] at hlen
                omega
              obtain ⟨hperm, horder⟩ :=
                nearest_neighbor_tsp_spec dist (depot :: cl ++ [depot]) (cl.length + 1)
                  (by simp [hslen])
              have h1 : (((List.range (cl.length + 1)).map Nat.succ).map
                  (fun i => (depot :: cl ++ [depot]).getD i depot)) = cl ++ [depot] := by
                rw [List.map_map]
                have h2 : cl.length + 1 = (cl ++ [depot]).length := by simp
                rw [h2]
                exact map_getD_range (cl ++ [depot]) depot
              have hmap := hperm.map (fun i => (depot :: cl ++ [depot]).getD i depot)
              rw [h1] at hmap
              refine ⟨rfl, rfl, hmap, ?_, ?_, hcl7⟩
              · rw [List.length_map]
                exact horder
              · rw [List.length_map, horder]
                simp

/-- C1 (amended): in a successful call, the reported stop sequences pair
off exactly with the clusters that `zip` pairs with a vehicle — each such
sequence is a permutation of its assigned cluster plus one extra depot
copy, so each assigned stop appears exactly once — while clusters beyond
the vehicle count are silently discarded by `zip`, and the response
carries no unassigned-stops list at all. -/
theorem optimize_routes_stop_assignment (dist : P → P → D)
    (vehicles : List Vehicle) (stops : List P) (depot : P)
    (max_stops_per_vehicle : Nat) (sol : RoutingSolution P)
    (h : optimize_routes dist vehicles stops depot max_stops_per_vehicle = .ok sol) :
    List.Forall₂ (fun (r : VehicleRoute P) (vc : Vehicle × List P) =>
        r.vehicle_id = vc.1.id ∧ List.Perm r.stops (vc.2 ++ [depot]))
      sol.routes
      ((vehicles.zip (cluster_stops stops vehicles.length max_stops_per_vehicle)).filter
        (fun vc => !vc.2.isEmpty)) := by
  simp only [optimize_routes] at h
  cases hrec : build_routes dist depot
      (vehicles.zip (cluster_stops stops vehicles.length max_stops_per_vehicle)) with
  | error e =>
      rw [hrec, except_map_error] at h
      exact Except.noConfusion h
  | ok routes =>
      rw [hrec, except_map_ok] at h
      injection h with h
      subst h
      exact (build_routes_spec dist depot _ routes hrec).imp
        (fun r vc hr => ⟨hr.1, hr.2.2.1⟩)

/-- C4 (amended): every route of a successful call is scored over one leg
fewer than its reported sequence length, and that sequence is the
assigned cluster plus exactly one extra depot copy — the leg count equals
the number of assigned stops, not that number plus one. -/
theorem optimize_routes_leg_count (dist : P → P → D)
    (vehicles : List Vehicle) (stops : List P) (depot : P)
    (max_stops_per_vehicle : Nat) (sol : RoutingSolution P)
    (h : optimize_routes dist vehicles stops depot max_stops_per_vehicle = .ok sol) :
    List.Forall₂ (fun (r : VehicleRoute P) (vc : Vehicle × List P) =>
        r.legs_scored + 1 = r.stops.length ∧ r.legs_scored = vc.2.length ∧
        List.Perm r.stops (vc.2 ++ [depot]))
      sol.routes
      ((vehicles.zip (cluster_stops stops vehicles.length max_stops_per_vehicle)).filter
        (fun vc => !vc.2.isEmpty)) := by
  simp only [optimize_routes] at h
  cases hrec : build_routes dist depot
      (vehicles.zip (cluster_stops stops vehicles.length max_stops_per_vehicle)) with
  | error e =>
      rw [hrec, except_map_error] at h
      exact Except.noConfusion h
  | ok routes =>
      rw [hrec, except_map_ok] at h
      injection h with h
      subst h
      refine (build_routes_spec dist depot _ routes hrec).imp (fun r vc hr => ?_)
      obtain ⟨_, _, hp, hsl, hls, _⟩ := hr
      exact ⟨by rw [hls, hsl], by rw [hls], hp⟩

end OptimizerLemmas

theorem split_cluster_stops14_eval :
    split_cluster 7 stops14 = [stops7, [8, 9, 10, 11, 12, 13, 14]] := by
  unfold stops14 stops7
  unfold split_cluster
  norm_num
  unfold split_cluster
  norm_num

theorem cluster_stops14_eval :
    cluster_stops stops14 1 7 = [stops7, [8, 9, 10, 11, 12, 13, 14]] := by
  have hr : round_robin stops14 1 = [stops14] := by decide
  simp only [cluster_stops, hr, List.flatMap_cons, List.flatMap_nil,
    split_cluster_stops14_eval]
  simp

theorem split_cluster_stops7_eval : split_cluster 7 stops7 = [stops7] := by
  unfold stops7
  unfold split_cluster
  norm_num

theorem cluster_stops7_eval : cluster_stops stops7 1 7 = [stops7] := by
  have hr : round_robin stops7 1 = [stops7] := by decide
  simp only [cluster_stops, hr, List.flatMap_cons, List.flatMap_nil,
    split_cluster_stops7_eval]
  simp

theorem optimize14_eval :
    optimize_routes line_dist [demo_vehicle] stops14 0 7 =
      .ok { routes := [route7] } := by
  have hc : cluster_stops stops14 ([demo_vehicle] : List Vehicle).length 7 =
      [stops7, [8, 9, 10, 11, 12, 13, 14]] := by
    simpa using cluster_stops14_eval
  simp only [optimize_routes, hc]
  decide

theorem optimize7_eval :
    optimize_routes line_dist [demo_vehicle] stops7 0 7 =
      .ok { routes := [route7] } := by
  have hc : cluster_stops stops7 ([demo_vehicle] : List Vehicle).length 7 =
      [stops7] := by
    simpa using cluster_stops7_eval
  simp only [optimize_routes, hc]
  decide

/-- C1 counterexample: with one vehicle, the fourteen stops `1..14` and
`max_stops_per_vehicle = 7`, the call succeeds, yet input stop 8 (like
all of the overflow cluster `8..14`) appears in no returned route — and
the response has no unassigned-stops list to carry it. -/
theorem optimize_routes_silently_drops_stop :
    optimize_routes line_dist [demo_vehicle] stops14 0 7 =
      .ok { routes := [route7] } ∧
    (8 : ℕ) ∈ stops14 ∧ (8 : ℕ) ∉ route7.stops :=
  ⟨optimize14_eval, by decide, by decide⟩

/-- Witness for `optimize_routes_stop_assignment` on the fourteen-stop
instance. -/
theorem optimize_routes_stop_assignment_witness :
    List.Forall₂ (fun (r : VehicleRoute ℕ) (vc : Vehicle × List ℕ) =>
        r.vehicle_id = vc.1.id ∧ List.Perm r.stops (vc.2 ++ [0]))
      (RoutingSolution.routes { routes := [route7] })
      (([demo_vehicle].zip
          (cluster_stops stops14 ([demo_vehicle] : List Vehicle).length 7)).filter
        (fun vc => !vc.2.isEmpty)) :=
  optimize_routes_stop_assignment line_dist [demo_vehicle] stops14 0 7
    { routes := [route7] } optimize14_eval

/-- C4 counterexample: for the seven stops `1..7` from depot 0 the
returned route is scored over 7 legs, not 7 + 1: its reported sequence
`[0, 1, …, 7]` holds the seven assigned stops plus a single leading depot
copy and ends at stop 7, not at the depot. -/
theorem optimize_routes_leg_count_counterexample :
    optimize_routes line_dist [demo_vehicle] stops7 0 7 =
      .ok { routes := [route7] } ∧
    route7.legs_scored = 7 ∧ stops7.length = 7 ∧ (7 : ℕ) ≠ 7 + 1 ∧
    route7.stops.getLast? = some 7 ∧ (7 : ℕ) ≠ 0 :=
  ⟨optimize7_eval, by decide, by decide, by decide, by decide, by decide⟩

/-- Witness for `optimize_routes_leg_count` on the seven-stop instance. -/
theorem optimize_routes_leg_count_witness :
    List.Forall₂ (fun (r : VehicleRoute ℕ) (vc : Vehicle × List ℕ) =>
        r.legs_scored + 1 = r.stops.length ∧ r.legs_scored = vc.2.length ∧
        List.Perm r.stops (vc.2 ++ [0]))
      (RoutingSolution.routes { routes := [route7] })
      (([demo_vehicle].zip
          (cluster_stops stops7 ([demo_vehicle] : List Vehicle).length 7)).filter
        (fun vc => !vc.2.isEmpty)) :=
  optimize_routes_leg_count line_dist [demo_vehicle] stops7 0 7
    { routes := [route7] } optimize7_eval

/-- C2: `_brute_force_tsp` reads the undefined name `num_steps` in its
first conditional, so even this three-stop instance raises `NameError`
instead of returning the optimal ordering. -/
theorem brute_force_tsp_raises :
    brute_force_tsp line_dist [0, 1, 2] = .error .nameError := rfl

section BruteForceLemmas

variable {P : Type} [Inhabited P] {D : Type} [LinearOrder D] {α : Type}

theorem best_step_lt (f : α → D) (b x : α) (hx : f x < f b) :
    best_step f (some b) x = some x := by
  simp [best_step, hx]

theorem best_step_ge (f : α → D) (b x : α) (hx : ¬f x < f b) :
    best_step f (some b) x = some b := by
  simp [best_step, hx]

/-- What survives a strict-improvement fold started at `b`: either `b`
itself, no larger than any key seen, or the element that last replaced
it — strictly smaller than `b` and everything before it, no larger than
anything after it. -/
theorem fold_best_from_some (f : α → D) :
    ∀ (l : List α) (b : α),
      ∃ r, l.foldl (best_step f) (some b) = some r ∧
        ((r = b ∧ ∀ x ∈ l, f b ≤ f x) ∨
         (∃ pre post, l = pre ++ r :: post ∧ f r < f b ∧
           (∀ y ∈ pre, f r < f y) ∧ (∀ y ∈ post, f r ≤ f y))) := by
  intro l
  induction l with
  | nil =>
      intro b
      exact ⟨b, rfl, Or.inl ⟨rfl, by simp⟩⟩
  | cons x xs ih =>
      intro b
      by_cases hx : f x < f b
      · obtain ⟨r, hr, hd⟩ := ih x
        refine ⟨r, by rw [List.foldl_cons, best_step_lt f b x hx, hr], Or.inr ?_⟩
        rcases hd with ⟨hrx, hmin⟩ | ⟨pre, post, hxs, hrx, hpre, hpost⟩
        · subst hrx
          exact ⟨[], xs, rfl, hx, by simp, hmin⟩
        · refine ⟨x :: pre, post, by rw [hxs]; rfl, lt_trans hrx hx, ?_, hpost⟩
          intro y hy
          rcases List.mem_cons.mp hy with hyx | hyp
          · exact hyx ▸ hrx
          · exact hpre y hyp
      · obtain ⟨r, hr, hd⟩ := ih b
        have hbx : f b ≤ f x := le_of_not_lt hx
        refine ⟨r, by rw [List.foldl_cons, best_step_ge f b x hx, hr], ?_⟩
        rcases hd with ⟨hrb, hmin⟩ | ⟨pre, post, hxs, hrb, hpre, hpost⟩
        · refine Or.inl ⟨hrb, ?_⟩
          intro y hy
          rcases List.mem_cons.mp hy with hyx | hyp
          · exact hyx ▸ hbx
          · exact hmin y hyp
        · refine Or.inr ⟨x :: pre, post, by rw [hxs]; rfl, hrb, ?_, hpost⟩
          intro y hy
          rcases List.mem_cons.mp hy with hyx | hyp
          · exact hyx ▸ lt_of_lt_of_le hrb hbx
          · exact hpre y hyp

/-- On a non-empty list the strict-improvement fold returns the first
element attaining the minimum key: strictly smaller than everything
before it, no larger than anything after it. -/
theorem fold_best_first_argmin (f : α → D) (l : List α) (hl : l ≠ []) :
    ∃ r, fold_best f l = some r ∧
      ∃ pre post, l = pre ++ r :: post ∧
        (∀ y ∈ pre, f r < f y) ∧ (∀ y ∈ post, f r ≤ f y) := by
  match l, hl with
  | x :: xs, _ =>
      obtain ⟨r, hr, hd⟩ := fold_best_from_some f xs x
      refine ⟨r, ?_, ?_⟩
      · show (x :: xs).foldl (best_step f) none = some r
        rw [List.foldl_cons]
        exact hr
      · rcases hd with ⟨hrx, hmin⟩ | ⟨pre, post, hxs, hrx, hpre, hpost⟩
        · subst hrx
          exact ⟨[], xs, rfl, by simp, hmin⟩
        · refine ⟨x :: pre, post, by rw [hxs]; rfl, ?_, hpost⟩
          intro y hy
          rcases List.mem_cons.mp hy with hyx | hyp
          · exact hyx ▸ hrx
          · exact hpre y hyp

/-- Every entry of `perms_lex l` is a permutation of `l`. -/
theorem perms_lex_sound :
    ∀ (n : Nat) (l : List Nat), l.length ≤ n →
      ∀ p ∈ perms_lex l, List.Perm p l := by
  intro n
  induction n with
  | zero =>
      intro l hlen p hp
      have hl : l = [] := List.eq_nil_of_length_eq_zero (Nat.le_zero.mp hlen)
      subst hl
      simp only [perms_lex, List.mem_singleton] at hp
      subst hp
      exact List.Perm.refl []
  | succ n ih =>
      intro l hlen p hp
      match l with
      | [] =>
          simp only [perms_lex, List.mem_singleton] at hp
          subst hp
          exact List.Perm.refl []
      | a :: rest =>
          simp only [perms_lex, List.mem_flatMap, List.mem_map] at hp
          obtain ⟨x, _, q, hq, hpq⟩ := hp
          subst hpq
          have hql : List.Perm q ((a :: rest).erase x.1) := by
            apply ih ((a :: rest).erase x.1) _ q hq
            rw [List.length_erase_of_mem x.2]
            simp only [List.length_cons] at hlen ⊢
            omega
          exact (hql.cons x.1).trans (List.perm_cons_erase x.2).symm

/-- Every permutation of `l` occurs in `perms_lex l`: the search is over
all permutations. -/
theorem perms_lex_complete :
    ∀ (n : Nat) (l : List Nat), l.length ≤ n →
      ∀ p, List.Perm p l → p ∈ perms_lex l := by
  intro n
  induction n with
  | zero =>
      intro l hlen p hp
      have hl : l = [] := List.eq_nil_of_length_eq_zero (Nat.le_zero.mp hlen)
      subst hl
      rw [hp.eq_nil]
      simp [perms_lex]
  | succ n ih =>
      intro l hlen p hp
      match l with
      | [] =>
          rw [hp.eq_nil]
          simp [perms_lex]
      | a :: rest =>
          match p with
          | [] =>
              have := hp.length_eq
              simp at this
          | x :: q =>
              have hx : x ∈ a :: rest := hp.mem_iff.mp (List.mem_cons_self x q)
              have hq : List.Perm q ((a :: rest).erase x) := by
                have h1 : List.Perm (x :: q) (x :: (a :: rest).erase x) :=
                  hp.trans (List.perm_cons_erase hx)
                exact (List.perm_cons x).mp h1
              have hqmem : q ∈ perms_lex ((a :: rest).erase x) := by
                apply ih ((a :: rest).erase x) _ q hq
                rw [List.length_erase_of_mem hx]
                simp only [List.length_cons] at hlen ⊢
                omega
              simp only [perms_lex, List.mem_flatMap, List.mem_map]
              exact ⟨⟨x, hx⟩, List.mem_attach _ _, q, hqmem, rfl⟩

/-- `perms_lex` never returns the empty list of candidates. -/
theorem perms_lex_ne_nil : ∀ (n : Nat) (l : List Nat), l.length ≤ n →
    perms_lex l ≠ [] := by
  intro n
  induction n with
  | zero =>
      intro l hlen
      have hl : l = [] := List.eq_nil_of_length_eq_zero (Nat.le_zero.mp hlen)
      subst hl
      simp [perms_lex]
  | succ n ih =>
      intro l hlen
      match l with
      | [] => simp [perms_lex]
      | a :: rest =>
          simp only [perms_lex, ne_eq, List.flatMap_eq_nil_iff, not_forall]
          refine ⟨⟨a, List.mem_cons_self a rest⟩, List.mem_attach _ _, ?_⟩
          simp only [ne_eq, List.map_eq_nil_iff]
          apply ih
          rw [List.length_erase_of_mem (List.mem_cons_self a rest)]
          simp only [List.length_cons] at hlen ⊢
          omega

theorem drop_one_dropLast (q : List Nat) : ((0 :: q ++ [0]).drop 1).dropLast = q := by
  show (q ++ [0]).dropLast = q
  rw [List.dropLast_concat]

/-- The typo-fixed brute force is an exact first-wins search: on at least
two stops it returns the first permutation, in `itertools` lexicographic
order, minimising the depot→stops→depot distance — in particular its
distance is a lower bound over every permutation of the non-depot
indices. -/
theorem brute_force_tsp_fixed_minimal [AddCommMonoid D] (dist : P → P → D)
    (stops : List P) (h2 : 2 ≤ stops.length) :
    ∃ pre post,
      perms_lex (List.range' 1 (stops.length - 1)) =
        pre ++ brute_force_tsp_fixed dist stops :: post ∧
      (∀ q ∈ pre,
        path_distance dist stops (0 :: brute_force_tsp_fixed dist stops ++ [0]) <
          path_distance dist stops (0 :: q ++ [0])) ∧
      (∀ q ∈ post,
        path_distance dist stops (0 :: brute_force_tsp_fixed dist stops ++ [0]) ≤
          path_distance dist stops (0 :: q ++ [0])) ∧
      List.Perm (brute_force_tsp_fixed dist stops)
        (List.range' 1 (stops.length - 1)) ∧
      (∀ q, List.Perm q (List.range' 1 (stops.length - 1)) →
        path_distance dist stops (0 :: brute_force_tsp_fixed dist stops ++ [0]) ≤
          path_distance dist stops (0 :: q ++ [0])) := by
  obtain ⟨r, hfold, pre, post, hdecomp, hpre, hpost⟩ :=
    fold_best_first_argmin
      (fun perm => path_distance dist stops (0 :: perm ++ [0]))
      (perms_lex (List.range' 1 (stops.length - 1)))
      (perms_lex_ne_nil _ (List.range' 1 (stops.length - 1)) le_rfl)
  have hval : brute_force_tsp_fixed dist stops = r := by
    unfold brute_force_tsp_fixed
    rw [if_neg (by omega)]
    rw [hfold]
    exact drop_one_dropLast r
  have hrmem : r ∈ perms_lex (List.range' 1 (stops.length - 1)) := by
    rw [hdecomp]
    exact List.mem_append_right pre (List.mem_cons_self r post)
  have hrperm : List.Perm r (List.range' 1 (stops.length - 1)) :=
    perms_lex_sound _ (List.range' 1 (stops.length - 1)) le_rfl r hrmem
  refine ⟨pre, post, by rw [hval]; exact hdecomp, ?_, ?_, hval ▸ hrperm, ?_⟩
  · intro q hq
    rw [hval]
    exact hpre q hq
  · intro q hq
    rw [hval]
    exact hpost q hq
  · intro q hq
    have hqmem : q ∈ perms_lex (List.range' 1 (stops.length - 1)) :=
      perms_lex_complete _ (List.range' 1 (stops.length - 1)) le_rfl q hq
    rw [hdecomp] at hqmem
    rw [hval]
    rcases List.mem_append.mp hqmem with hqpre | hqcons
    · exact le_of_lt (hpre q hqpre)
    · rcases List.mem_cons.mp hqcons with hqr | hqpost
      · rw [hqr]
      · exact hpost q hqpost

end BruteForceLemmas

end EdgeFleet
